import Mathlib

/-!
Verification development for the bootstrap script
`mcc180_init.py` ("Quantum Technology 1 - Parameter estimation techniques").

The script is a linear initialization procedure: it builds a static
hardware-configuration mapping, sets a data directory, connects to a
hardware cluster, instantiates measurement-control utilities and a
quantum-device registry, and (in a loop) registers device elements.
We embed the data literals and the top-level sequence of operations and
prove shape, ordering, uniqueness and independence properties about them.
-/

namespace Mcc180

/-- Values of the Python data literals used by the script: strings,
numbers (all numeric literals in the script are exact integers, so we use
`Int`), dictionaries (ordered key/value lists, as Python dicts preserve
insertion order) and lists. -/
inductive PyVal where
  | str (s : String)
  | num (n : Int)
  | obj (fields : List (String × PyVal))
  | arr (elems : List PyVal)

/-- Entries of a dictionary value; non-dictionaries have none. -/
def objEntries : PyVal → List (String × PyVal)
  | .obj fs => fs
  | _ => []

/-- Whether a value is a dictionary. -/
def PyVal.isObj : PyVal → Bool
  | .obj _ => true
  | _ => false

/-- Whether a dictionary value carries the given key. -/
def hasKey (v : PyVal) (k : String) : Bool :=
  (objEntries v).any (fun p => p.1 == k)

/-- Look up a key in a dictionary value. -/
def lookupKey (v : PyVal) (k : String) : Option PyVal :=
  (objEntries v).lookup k

/-- The sub-entries of a dictionary whose values are themselves
dictionaries (string- or number-valued entries are not nested records). -/
def subObjects (v : PyVal) : List (String × PyVal) :=
  (objEntries v).filter (fun p => p.2.isObj)

/-- Module `clusterA_module2` of the hardware configuration
(mcc180_init.py lines 125-140): a QCM_RF module with one complex output
binding port `q00:mw` to clock `q00.01`. -/
def clusterA_module2 : PyVal :=
  .obj [("instrument_type", .str "QCM_RF"),
        ("complex_output_0", .obj
          [("lo_freq", .num 5312327240),
           ("dc_mixer_offset_I", .num 0),
           ("dc_mixer_offset_Q", .num 0),
           ("portclock_configs", .arr
             [.obj [("port", .str "q00:mw"),
                    ("clock", .str "q00.01"),
                    ("mixer_amp_ratio", .num 1),
                    ("mixer_phase_error_deg", .num 0)]])])]

/-- Module `clusterA_module10` of the hardware configuration
(mcc180_init.py lines 141-156): a QRM_RF module with one complex output
binding port `q00:res` to clock `q00.ro`. -/
def clusterA_module10 : PyVal :=
  .obj [("instrument_type", .str "QRM_RF"),
        ("complex_output_0", .obj
          [("lo_freq", .num 7197494954),
           ("dc_mixer_offset_I", .num 0),
           ("dc_mixer_offset_Q", .num 0),
           ("portclock_configs", .arr
             [.obj [("port", .str "q00:res"),
                    ("clock", .str "q00.ro"),
                    ("mixer_amp_ratio", .num 1),
                    ("mixer_phase_error_deg", .num 0)]])])]

/-- The cluster entry `clusterA` of the hardware configuration
(mcc180_init.py lines 122-157). -/
def clusterA_cfg : PyVal :=
  .obj [("ref", .str "internal"),
        ("instrument_type", .str "Cluster"),
        ("clusterA_module2", clusterA_module2),
        ("clusterA_module10", clusterA_module10)]

/-- The hardware configuration literal `hardware_cfg`
(mcc180_init.py lines 120-158). -/
def hardware_cfg : PyVal :=
  .obj [("backend", .str "quantify_scheduler.backends.qblox_backend.hardware_compile"),
        ("clusterA", clusterA_cfg)]

/-- The module-level constant `RO_settings` (mcc180_init.py line 118). -/
def RO_settings : PyVal :=
  .obj [("LO", .num 5800000000), ("off_I", .num 0), ("off_Q", .num 0)]

/-- Cluster entries of a hardware configuration: the dictionary-valued
entries of the top-level mapping (the `backend` entry is a string). -/
def clusters (cfg : PyVal) : List (String × PyVal) :=
  subObjects cfg

/-- Module entries of a cluster: the dictionary-valued entries of the
cluster mapping (`ref` and `instrument_type` are strings). -/
def modules (c : PyVal) : List (String × PyVal) :=
  subObjects c

/-- Output entries of a module: the dictionary-valued entries of the
module mapping (such as `complex_output_0`; `instrument_type` is a
string). -/
def outputs (m : PyVal) : List (String × PyVal) :=
  subObjects m

/-- The list bound to `portclock_configs` in an output entry, when
present and list-valued. -/
def portclockEntries (o : PyVal) : Option (List PyVal) :=
  match lookupKey o "portclock_configs" with
  | some (.arr es) => some es
  | _ => none

/-- The `portclock_configs` lists occurring in a module's outputs. -/
def modulePortclockLists (m : PyVal) : List (List PyVal) :=
  (outputs m).filterMap (fun o => portclockEntries o.2)

/-- The four keys every port/clock binding entry must carry. -/
def pcKeys : List String :=
  ["port", "clock", "mixer_amp_ratio", "mixer_phase_error_deg"]

/-- A dictionary value carries exactly the given keys (same number of
keys, and the key sets agree). -/
def keysExactly (v : PyVal) (ks : List String) : Bool :=
  let actual := (objEntries v).map Prod.fst
  actual.length == ks.length
    && ks.all (fun k => actual.contains k)
    && actual.all (fun k => ks.contains k)

/-- A module satisfies the port/clock shape requirement: it has at least
one `portclock_configs` list, each such list is non-empty, and every
entry carries exactly the keys of `pcKeys`. -/
def modulePortclockShapeOk (m : PyVal) : Bool :=
  let pls := modulePortclockLists m
  !pls.isEmpty
    && pls.all (fun l => !l.isEmpty && l.all (fun e => keysExactly e pcKeys))

/-- The shape property claimed for the hardware configuration: it carries
the key `backend`; every cluster entry carries `ref` and
`instrument_type`; and every module entry satisfies the port/clock shape
requirement. -/
def hardwareCfgShapeOk (cfg : PyVal) : Bool :=
  hasKey cfg "backend"
    && (clusters cfg).all (fun c =>
         hasKey c.2 "ref" && hasKey c.2 "instrument_type"
           && (modules c.2).all (fun m => modulePortclockShapeOk m.2))

/-- The (port, clock) string pairs bound by the `portclock_configs`
entries of all modules of a cluster. -/
def clusterPortClockPairs (c : PyVal) : List (String × String) :=
  ((modules c).map (fun m =>
    ((outputs m.2).map (fun o =>
      match portclockEntries o.2 with
      | some es => es.filterMap (fun e =>
          match lookupKey e "port", lookupKey e "clock" with
          | some (.str p), some (.str k) => some (p, k)
          | _, _ => none)
      | none => [])).flatten)).flatten

/-- Every cluster of a hardware configuration binds each (port, clock)
pair at most once across all its modules. -/
def clusterPairsUnique (cfg : PyVal) : Bool :=
  (clusters cfg).all (fun c => decide (clusterPortClockPairs c.2).Nodup)

/-- Top-level operations the script performs after the import section, in
the order they appear in mcc180_init.py (source line in each comment).
Commented-out statements (the SPI rack, the spectrum analyzer and the
settings-hydration call) execute nothing and so contribute no event;
timing `print` statements are omitted as pure console output. -/
inductive Ev where
  | defineROSettings                      -- line 118
  | buildHardwareCfg                      -- lines 120-158
  | setDatadir                            -- line 166
  | reportDatadir                         -- line 167
  | connectCluster                        -- line 178
  | reportSystemStatus                    -- line 179 (query + print)
  | resetCluster                          -- line 183
  | mkClusterComponent                    -- line 197
  | mkInstrumentCoordinator               -- line 199
  | addClusterComponent                   -- line 200
  | mkMeasCtrl                            -- line 206
  | mkNestedMeasCtrl                      -- line 207
  | mkPlotmon                             -- line 211
  | bindPlotmonToMeasCtrl                 -- line 213
  | mkPlotmonNested                       -- line 215
  | bindPlotmonNestedToNestedMeasCtrl     -- line 217
  | mkInstrumentMonitor                   -- line 220
  | mkTransmonElement                     -- line 225
  | mkQuantumDevice                       -- line 234
  | bindMeasurementControlName            -- line 236
  | bindInstrumentCoordinatorName         -- line 237
  | attachHardwareConfig                  -- line 239
  | addElement (q : String)               -- line 244 (one per loop pass)
deriving DecidableEq

/-- The trace of top-level operations of mcc180_init.py in source order
(lines 118-251; the loop over `list_of_qubits = [q0]` runs once). -/
def scriptTrace : List Ev :=
  [.defineROSettings, .buildHardwareCfg,
   .setDatadir, .reportDatadir,
   .connectCluster, .reportSystemStatus, .resetCluster,
   .mkClusterComponent, .mkInstrumentCoordinator, .addClusterComponent,
   .mkMeasCtrl, .mkNestedMeasCtrl,
   .mkPlotmon, .bindPlotmonToMeasCtrl,
   .mkPlotmonNested, .bindPlotmonNestedToNestedMeasCtrl,
   .mkInstrumentMonitor, .mkTransmonElement,
   .mkQuantumDevice, .bindMeasurementControlName,
   .bindInstrumentCoordinatorName, .attachHardwareConfig,
   .addElement "q00"]

/-- The four bootstrap stages named by the specification. -/
inductive Stage where
  | envSetup              -- establishing the working data directory
  | configAssembly        -- building the hardware-configuration mapping
  | sessionConstruction   -- instantiating and cross-binding instruments
  | stateHydration        -- iterating over device elements
deriving DecidableEq

/-- The stage each top-level operation belongs to: the configuration
literals are static configuration assembly, the data-directory calls are
environment setup, instrument instantiation and cross-binding are session
construction, and the device-element loop is state hydration. -/
def stageOf : Ev → Stage
  | .defineROSettings => .configAssembly
  | .buildHardwareCfg => .configAssembly
  | .setDatadir => .envSetup
  | .reportDatadir => .envSetup
  | .addElement _ => .stateHydration
  | _ => .sessionConstruction

/-- Index of the first event of a given stage in the script trace. -/
def firstIdxOfStage (s : Stage) : Nat :=
  scriptTrace.findIdx (fun e => stageOf e == s)

/-- Index of the first occurrence of a given event in the script trace. -/
def firstIdxOfEv (e : Ev) : Nat :=
  scriptTrace.findIdx (· == e)

/-- Rank of a stage in the order the script actually runs them. -/
def stageRank : Stage → Nat
  | .configAssembly => 0
  | .envSetup => 1
  | .sessionConstruction => 2
  | .stateHydration => 3

/-- State of the data-directory registry: the directories existing on
the filesystem, and the directory registered as the active data
directory. -/
structure FsState where
  dirs : List String
  activeDatadir : Option String
deriving DecidableEq

/-- Path join as used at line 166 of the script: `os.path.join` applied
to a base directory without a trailing separator and the relative
component `"quantify-data"` inserts a single separator. -/
def joinPath (a b : String) : String := a ++ "/" ++ b

/-- Modelled from the spec: `quantify_core.data.handling.set_datadir` is
external to this repository (only its call site is in src). Per the spec
it ensures the requested directory exists (creating it when the
filesystem permits) and registers it as the active data directory,
propagating filesystem errors such as permission denied. `perm` says
which directories the invoking user may create. -/
def set_datadir (perm : String → Bool) (path : String) (st : FsState) :
    Except String FsState :=
  if st.dirs.contains path then
    .ok { st with activeDatadir := some path }
  else if perm path then
    .ok { dirs := path :: st.dirs, activeDatadir := some path }
  else
    .error "permission denied"

/-- The data-directory setup step of the script (line 166):
`set_datadir(os.path.join(Path.home(), "quantify-data"))`, parametrized
by the home directory. -/
def datadirSetup (perm : String → Bool) (home : String) (st : FsState) :
    Except String FsState :=
  set_datadir perm (joinPath home "quantify-data") st

/-- Bookkeeping for the device-element loop (mcc180_init.py lines
243-251): which elements have been registered via `add_element`, and how
many hydration (`load_settings_onto_instrument`) calls were attempted. -/
structure DeviceLoopState where
  registered : List String
  hydrationAttempts : Nat
deriving DecidableEq

/-- The device-element loop as it executes (lines 243-244; the
`load_settings_onto_instrument` try/except of lines 246-251 is commented
out): each pass registers its element with `add_element` and attempts no
hydration, whatever `failsLookup` (the elements whose settings lookup
would raise a validation error) says. -/
def deviceElementLoop (failsLookup : String → Bool) (qubits : List String) :
    DeviceLoopState :=
  qubits.foldl (fun st q => { st with registered := st.registered ++ [q] })
    ⟨[], 0⟩

/-- A qcodes-style instrument, identified by its name string. -/
structure NamedInstrument where
  name : String
deriving DecidableEq

/-- A MeasurementControl manager: its name and the name of the
live-plotting monitor bound via its `instr_plotmon` parameter (none
before binding). -/
structure MeasurementControl where
  name : String
  instr_plotmon : Option String
deriving DecidableEq

/-- The live-plotting monitor `plotmon` (line 211). -/
def plotmon : NamedInstrument := ⟨"plotmon"⟩

/-- The live-plotting monitor `plotmon_nested` (line 215). -/
def plotmon_nested : NamedInstrument := ⟨"plotmon_nested"⟩

/-- The instrument coordinator (line 199). -/
def instrument_coordinator : NamedInstrument := ⟨"instrument_coordinator"⟩

/-- The transmon device element `q0 = BasicTransmonElement("q00")`
(line 225). -/
def q0 : NamedInstrument := ⟨"q00"⟩

/-- The list of configured device elements (line 242). -/
def list_of_qubits : List NamedInstrument := [q0]

/-- The primary measurement-control manager: created as
`MeasurementControl("meas_ctrl")` (line 206), then bound to `plotmon` by
the monitor's name, `meas_ctrl.instr_plotmon(plotmon.name)` (line 213). -/
def meas_ctrl : MeasurementControl :=
  { (⟨"meas_ctrl", none⟩ : MeasurementControl) with
      instr_plotmon := some plotmon.name }

/-- The nested measurement-control manager: created as
`MeasurementControl("nested_meas_ctrl")` (line 207), then bound to
`plotmon_nested` by name (line 217). -/
def nested_meas_ctrl : MeasurementControl :=
  { (⟨"nested_meas_ctrl", none⟩ : MeasurementControl) with
      instr_plotmon := some plotmon_nested.name }

/-- The measurement-control managers the script instantiates
(lines 206-217): exactly the primary and the nested one. -/
def measurementControls : List MeasurementControl :=
  [meas_ctrl, nested_meas_ctrl]

/-- The `QuantumDevice` registry: its name, the names (not references)
of its measurement-control and instrument-coordinator instruments, the
attached hardware configuration, and the names of the registered device
elements. -/
structure QuantumDeviceState where
  name : String
  instr_measurement_control : Option String
  instr_instrument_coordinator : Option String
  hardware_config : Option PyVal
  elements : List String

/-- The quantum-device registry after lines 234-251: created (line 234),
bound to the measurement control and the instrument coordinator by their
names (lines 236-237), given the hardware configuration (line 239), and
filled by the device-element loop (lines 243-244). -/
def quantum_device : QuantumDeviceState :=
  let qd : QuantumDeviceState := ⟨"quantum_device", none, none, none, []⟩
  let qd := { qd with instr_measurement_control := some meas_ctrl.name }
  let qd := { qd with
    instr_instrument_coordinator := some instrument_coordinator.name }
  let qd := { qd with hardware_config := some hardware_cfg }
  list_of_qubits.foldl
    (fun qd q => { qd with elements := qd.elements ++ [q.name] }) qd

/-- The artifacts the script builds after line 118: the hardware
configuration, the data-directory step, the operation trace, the
measurement-control managers and the quantum-device registry. -/
structure SessionArtifacts where
  cfg : PyVal
  datadirStep : (String → Bool) → String → FsState → Except String FsState
  events : List Ev
  measCtrls : List MeasurementControl
  quantumDevice : QuantumDeviceState

/-- The remainder of the script (lines 120-258) as a function of the
value `ro` assigned to `RO_settings` at line 118: `ro` is in scope for
every later line, but no later line reads `RO_settings`, so none of the
artifacts mentions it. -/
def scriptSession (ro : PyVal) : SessionArtifacts :=
  { cfg := hardware_cfg
    datadirStep := datadirSetup
    events := scriptTrace
    measCtrls := measurementControls
    quantumDevice := quantum_device }

/-- C1: the constructed hardware configuration mapping contains the
literal key `backend`; each cluster entry contains the keys `ref` and
`instrument_type`; and every module entry has a non-empty
`portclock_configs` sequence in which every element contains exactly the
four keys port, clock, mixer_amp_ratio and mixer_phase_error_deg. -/
theorem hardware_cfg_shape_ok : hardwareCfgShapeOk hardware_cfg = true := by
  decide

/-- C5: across all modules of each cluster of the constructed hardware
configuration, every (port, clock) pair appearing in a
`portclock_configs` entry is unique. -/
theorem hardware_cfg_portclock_pairs_unique :
    clusterPairsUnique hardware_cfg = true := by
  decide

/-- C3 counterexample: the claimed stage order is false on the code. The
first environment-setup event (`set_datadir`, line 166) does not precede
the first static-configuration-assembly event (`hardware_cfg`, lines
120-158): configuration assembly comes first in the script. -/
theorem stage_order_claim_false :
    ¬ (firstIdxOfStage .envSetup < firstIdxOfStage .configAssembly
        ∧ firstIdxOfStage .configAssembly < firstIdxOfStage .sessionConstruction
        ∧ firstIdxOfStage .sessionConstruction < firstIdxOfStage .stateHydration) := by
  decide

/-- C3 (amended): the bootstrap runs its four stages in the order static
configuration assembly, then environment setup, then session
construction, then state hydration; every event of an earlier stage
precedes every event of a later stage, and all four stages occur. -/
theorem stage_order_actual :
    List.Pairwise (fun a b => stageRank (stageOf a) ≤ stageRank (stageOf b)) scriptTrace
      ∧ Stage.configAssembly ∈ scriptTrace.map stageOf
      ∧ Stage.envSetup ∈ scriptTrace.map stageOf
      ∧ Stage.sessionConstruction ∈ scriptTrace.map stageOf
      ∧ Stage.stateHydration ∈ scriptTrace.map stageOf := by
  decide

/-- C4 counterexample: the claimed bootstrap order connect → reset →
status is false on the code: the status query and report (line 179) does
not come after the reset (line 183). -/
theorem cluster_bootstrap_claim_false :
    ¬ (firstIdxOfEv .connectCluster < firstIdxOfEv .resetCluster
        ∧ firstIdxOfEv .resetCluster < firstIdxOfEv .reportSystemStatus) := by
  decide

/-- C4 (amended): the instrument-session bootstrap establishes the
connection to the cluster, then queries and reports its system status,
then issues the reset command; all three events occur in the trace. -/
theorem cluster_bootstrap_actual_order :
    Ev.connectCluster ∈ scriptTrace
      ∧ Ev.reportSystemStatus ∈ scriptTrace
      ∧ Ev.resetCluster ∈ scriptTrace
      ∧ firstIdxOfEv .connectCluster < firstIdxOfEv .reportSystemStatus
      ∧ firstIdxOfEv .reportSystemStatus < firstIdxOfEv .resetCluster := by
  decide

/-- Evaluating the device-element loop: folding registration over the
element list appends the list to the accumulator and never touches the
hydration counter. -/
theorem deviceElementLoop_foldl (qubits acc : List String) (n : Nat) :
    qubits.foldl (fun st q => { st with registered := st.registered ++ [q] })
      (DeviceLoopState.mk acc n) = ⟨acc ++ qubits, n⟩ := by
  induction qubits generalizing acc with
  | nil => simp
  | cons q qs ih => simp [List.foldl_cons, ih]

/-- C2 counterexample: with one configured element and no validation
errors (N = 1, M = 0) the claim demands exactly one hydration attempt,
but the loop as it executes (its hydration call commented out) attempts
none. -/
theorem device_loop_claim_false :
    ¬ (deviceElementLoop (fun _ => false) ["q00"]).hydrationAttempts = 1 := by
  decide

/-- C2 (amended): the loop registers all N configured elements, in
order, and attempts hydration exactly 0 times, independent of which
elements would raise a validation error on settings lookup (the
hydration call is commented out); in particular no validation error can
abort the loop. -/
theorem device_loop_registers_all (failsLookup : String → Bool)
    (qubits : List String) :
    (deviceElementLoop failsLookup qubits).registered = qubits
      ∧ (deviceElementLoop failsLookup qubits).hydrationAttempts = 0 := by
  constructor <;> simp [deviceElementLoop, deviceElementLoop_foldl]

/-- C6: the data-directory setup step is idempotent: when a first run
from state `st` succeeds and yields state `st1`, a second run with the
same base path raises no error and returns `st1` unchanged — in
particular the same resolved active data directory. -/
theorem datadirSetup_idempotent (perm : String → Bool) (home : String)
    (st st1 : FsState) (h : datadirSetup perm home st = .ok st1) :
    datadirSetup perm home st1 = .ok st1 := by
  unfold datadirSetup set_datadir at h ⊢
  split at h
  next hc =>
    injection h with h1
    subst h1
    split
    next => rfl
    next hc2 => exact absurd hc hc2
  next hc =>
    split at h
    next hp =>
      injection h with h1
      subst h1
      split
      next => rfl
      next hc2 => exact absurd (by simp) hc2
    next hp =>
      simp at h

/-- Witness for C6 at a concrete input: a second setup run from the
state produced by a successful first run (empty filesystem, all
directories creatable, home `/home/user`) returns that state unchanged. -/
theorem datadirSetup_idempotent_witness :
    datadirSetup (fun _ => true) "/home/user"
      ⟨[joinPath "/home/user" "quantify-data"],
        some (joinPath "/home/user" "quantify-data")⟩
      = .ok ⟨[joinPath "/home/user" "quantify-data"],
              some (joinPath "/home/user" "quantify-data")⟩ :=
  datadirSetup_idempotent (fun _ => true) "/home/user" ⟨[], none⟩ _ rfl

/-- C7: whenever the data-directory setup step succeeds, the registered
active data directory is exactly the path join of the home directory
with "quantify-data". -/
theorem datadir_is_home_quantify_data (perm : String → Bool)
    (home : String) (st st1 : FsState)
    (h : datadirSetup perm home st = .ok st1) :
    st1.activeDatadir = some (joinPath home "quantify-data") := by
  unfold datadirSetup set_datadir at h
  split at h
  next hc =>
    injection h with h1
    subst h1
    rfl
  next hc =>
    split at h
    next hp =>
      injection h with h1
      subst h1
      rfl
    next hp =>
      simp at h

/-- Witness for C7 at a concrete input: running the setup step on an
empty, fully-permitted filesystem with home `/home/user` registers the
joined path. -/
theorem datadir_is_home_quantify_data_witness :
    (FsState.mk [joinPath "/home/user" "quantify-data"]
        (some (joinPath "/home/user" "quantify-data"))).activeDatadir
      = some (joinPath "/home/user" "quantify-data") :=
  datadir_is_home_quantify_data (fun _ => true) "/home/user" ⟨[], none⟩ _ rfl

/-- C8: the quantum-device registry is bound to the measurement-control
and instrument-coordinator instances by their name strings, has the
static hardware configuration attached, and has every device element of
the configured list registered. -/
theorem quantum_device_bindings :
    quantum_device.instr_measurement_control = some meas_ctrl.name
      ∧ quantum_device.instr_instrument_coordinator
          = some instrument_coordinator.name
      ∧ quantum_device.hardware_config = some hardware_cfg
      ∧ quantum_device.elements = list_of_qubits.map NamedInstrument.name :=
  ⟨rfl, rfl, rfl, rfl⟩

/-- C9: the bootstrap instantiates exactly two measurement-control
managers, the primary bound to the monitor named "plotmon" and the
nested one to the monitor named "plotmon_nested", each by the monitor's
name string. -/
theorem two_measurement_controls_bound :
    measurementControls.length = 2
      ∧ measurementControls.map (fun m => (m.name, m.instr_plotmon))
          = [("meas_ctrl", some plotmon.name),
             ("nested_meas_ctrl", some plotmon_nested.name)]
      ∧ plotmon.name = "plotmon" ∧ plotmon_nested.name = "plotmon_nested" :=
  ⟨rfl, rfl, rfl, rfl⟩

/-- C10: `RO_settings` is the literal of line 118 (LO frequency
5800000000 Hz, zero I and Q offsets) and is dead data: the artifacts the
rest of the script builds are identical for any two values of the
constant. -/
theorem RO_settings_dead :
    lookupKey RO_settings "LO" = some (.num 5800000000)
      ∧ lookupKey RO_settings "off_I" = some (.num 0)
      ∧ lookupKey RO_settings "off_Q" = some (.num 0)
      ∧ ∀ ro1 ro2 : PyVal, scriptSession ro1 = scriptSession ro2 :=
  ⟨rfl, rfl, rfl, fun _ _ => rfl⟩

end Mcc180
